import Mathlib

/-!
Verification development for the audio-uploader backend (Express/Prisma/S3).

The JavaScript source is shallowly embedded as executable Lean definitions:
the Prisma database is a pair of lists (users, audio files), each route
handler is a pure function from its inputs and the database to an HTTP-level
result together with the successor database and the ordered list of external
effects (S3 and database writes) it performed.  Opaque external primitives
(bcrypt hashing/comparison, JWT signing, S3 presigning, e-mail format
validation) are passed in as function parameters, matching the spec's
treatment of them as opaque collaborators.
-/

namespace AudioUploader

/-- A row of the `User` table (prisma): id, unique username, bcrypt password
hash, optional unique email, timestamps. -/
structure User where
  id : String
  username : String
  password : String
  email : Option String
  createdAt : Nat
  updatedAt : Nat
deriving Repr, DecidableEq

/-- A row of the `AudioFile` table (prisma), exactly the fields written by
`audioController.uploadAudio`. -/
structure AudioFile where
  id : String
  title : String
  description : Option String
  category : String
  s3Key : String
  s3Url : String
  fileName : String
  fileSize : Nat
  mimeType : String
  userId : String
  createdAt : Nat
  updatedAt : Nat
deriving Repr, DecidableEq

/-- The relational state: the two Prisma tables. -/
structure Db where
  users : List User
  audioFiles : List AudioFile
deriving Repr, DecidableEq

/-- The fixed category enumeration from `audio.routes.js` (`body("category").isIn`),
identical to the frontend's `CATEGORIES` list. -/
def CATEGORIES : List String :=
  ["Music", "Podcast", "Audiobook", "Sound Effect", "Voice Recording", "Other"]

/-- JavaScript truthiness of an optional string field of `req.body` or
`req.query`: `undefined` and `""` are falsy, every other string is truthy. -/
def truthy : Option String → Bool
  | none => false
  | some s => !(s == "")

/-- External effects a handler performs, in program order.  `s3Put`/`s3Delete`
are successful Blob Store calls, `dbInsert`/`dbDelete` successful registry
writes. -/
inductive Effect where
  | s3Put (key : String)
  | s3Delete (key : String)
  | dbInsert (f : AudioFile)
  | dbDelete (id : String)
deriving Repr, DecidableEq

/-- `prisma.audioFile.findUnique({ where: { id } })`. -/
def findUniqueAudio (db : Db) (id : String) : Option AudioFile :=
  db.audioFiles.find? (fun f => f.id == id)

/-- `prisma.audioFile.findFirst({ where: { fileName, userId } })`. -/
def findFirstAudioByNameUser (db : Db) (fileName userId : String) : Option AudioFile :=
  db.audioFiles.find? (fun f => f.fileName == fileName && f.userId == userId)

/-- Result of `GET /api/audio/:id` (`audioController.getAudioFile`):
404, 403, or 200 with the full metadata row. -/
inductive SingleResult where
  | notFound
  | forbidden
  | ok (file : AudioFile)
deriving Repr, DecidableEq

/-- `audioController.getAudioFile`: look the row up by id; 404 if absent,
403 if `audioFile.userId !== req.user.userId`, otherwise the row. -/
def getAudioFile (db : Db) (callerId id : String) : SingleResult :=
  match findUniqueAudio db id with
  | none => .notFound
  | some f => if f.userId != callerId then .forbidden else .ok f

/-- Result of `GET /api/audio/:id/play` (`audioController.getPlaybackUrl`). -/
inductive PlayResult where
  | notFound
  | forbidden
  | ok (url : String)
deriving Repr, DecidableEq

/-- `audioController.getPlaybackUrl`: same existence and ownership checks as
`getAudioFile`, then returns `getPresignedUrl(audioFile.s3Key)`; the presigner
is the opaque parameter `presign`. -/
def getPlaybackUrl (presign : String → String) (db : Db) (callerId id : String) : PlayResult :=
  match findUniqueAudio db id with
  | none => .notFound
  | some f => if f.userId != callerId then .forbidden else .ok (presign f.s3Key)

/-- Result of `DELETE /api/audio/:id` (`audioController.deleteAudio`).
`storageError` is `deleteFromS3` throwing, surfaced by the error handler as a
500 Storage Error. -/
inductive DeleteResult where
  | notFound
  | forbidden
  | storageError
  | ok
deriving Repr, DecidableEq

/-- `audioController.deleteAudio`: find by id (404 if absent), ownership check
(403), then `deleteFromS3(audioFile.s3Key)` and only afterwards
`prisma.audioFile.delete({ where: { id } })`.  The boolean `s3ok` is whether
the S3 delete call succeeds; when it throws, control jumps to the catch block
before the registry delete runs. -/
def deleteAudio (db : Db) (callerId id : String) (s3ok : Bool) :
    DeleteResult × Db × List Effect :=
  match findUniqueAudio db id with
  | none => (.notFound, db, [])
  | some f =>
    if f.userId != callerId then (.forbidden, db, [])
    else if !s3ok then (.storageError, db, [])
    else (.ok, { db with audioFiles := db.audioFiles.filter (fun g => !(g.id == id)) },
          [.s3Delete f.s3Key, .dbDelete id])

/-- The success message of the duplicate-name probe (`audio.controller.js`). -/
def checkFoundMessage : String :=
  "This audio file was uploaded previously. Please proceed if you want to re-upload it."

/-- The miss message of the duplicate-name probe. -/
def checkMissMessage : String :=
  "Audio file not found, proceed with upload"

/-- Result of `GET /api/audio/check/:fileName/:userId`: both cases are HTTP 200. -/
inductive CheckResult where
  | found (message : String) (file : AudioFile)
  | miss (message : String)
deriving Repr, DecidableEq

/-- `audioController.getAudioFileByName`: reads `fileName` and `userId` from
`req.params` and returns the first matching row.  The authenticated caller's
identity (`req.user.userId`, the `callerId` parameter) is never consulted by
the handler body. -/
def getAudioFileByName (db : Db) (callerId fileName userId : String) : CheckResult :=
  match findFirstAudioByNameUser db fileName userId with
  | some f => .found checkFoundMessage f
  | none => .miss checkMissMessage

/-! ## Upload pipeline (multer → express-validator sanitizers → controller) -/

/-- The multer file object: original name, byte size, MIME type
(`multer.memoryStorage()`, the buffer itself carries no further logic). -/
structure MulterFile where
  originalname : String
  size : Nat
  mimetype : String
deriving Repr, DecidableEq

/-- `allowedMimeTypes` from `config/multer.js`. -/
def allowedMimeTypes : List String := ["audio/avi", "audio/mp4", "audio/mpeg"]

/-- `limits.fileSize` from `config/multer.js`: 50 MB. -/
def maxFileSize : Nat := 50 * 1024 * 1024

/-- Whether multer passes the file through to the controller: the MIME type is
in the allow-list (`fileFilter`) and the size is within the limit. -/
def multerAccepts (f : MulterFile) : Bool :=
  allowedMimeTypes.contains f.mimetype && f.size ≤ maxFileSize

/-- The multipart body fields of `POST /api/audio/upload`; `none` is an absent
field (`undefined` in JS). -/
structure UploadBody where
  title : Option String
  description : Option String
  category : Option String
deriving Repr, DecidableEq

/-- Strip leading and trailing whitespace: the semantics of the
express-validator `.trim()` sanitizer (JavaScript `String.prototype.trim`),
written structurally so it evaluates in the kernel. -/
def trimChars (s : String) : String :=
  String.mk (((s.data.dropWhile Char.isWhitespace).reverse.dropWhile
    Char.isWhitespace).reverse)

/-- The express-validator sanitizers of the upload route: `body("title").trim()`
and `body("description").optional().trim()` rewrite the body in place before
the controller runs; `category` has no sanitizer. -/
def sanitizeUploadBody (b : UploadBody) : UploadBody :=
  { b with
    title := b.title.map trimChars
    description := b.description.map trimChars }

/-- The validation errors the upload route's express-validator chain records
(on the sanitized body): title required with trimmed length 1–200, optional
description at most 1000, category in the fixed enumeration.  The audio
controller never calls `validationResult`, so this list is computed by the
middleware but never consulted. -/
def uploadValidationErrors (b : UploadBody) : List String :=
  (match b.title with
   | none => ["Title is required and must be less than 200 characters"]
   | some t =>
     if 1 ≤ t.length && t.length ≤ 200 then []
     else ["Title is required and must be less than 200 characters"]) ++
  (match b.description with
   | none => []
   | some d =>
     if d.length ≤ 1000 then []
     else ["Description must be less than 1000 characters"]) ++
  (match b.category with
   | none => ["Invalid category"]
   | some c => if CATEGORIES.contains c then [] else ["Invalid category"])

/-- Result of the upload route.  `fileRejected` is multer's fileFilter/size
error (400 via the error handler), `badRequest` a controller 400,
`storageError` `uploadToS3` throwing (500 Storage Error), `created` the 201
response carrying the created row. -/
inductive UploadResult where
  | fileRejected
  | badRequest (msg : String)
  | storageError
  | created (f : AudioFile)
deriving Repr, DecidableEq

/-- `uploadToS3` key construction (`s3.service.js`):
`audio/${userId}/${uuidv4()}-${file.originalname}`; the freshly generated
UUID is the `token` parameter. -/
def uploadToS3Key (userId token originalname : String) : String :=
  "audio/" ++ userId ++ "/" ++ token ++ "-" ++ originalname

/-- `uploadToS3` URL construction:
`https://${bucket}.s3.${region}.amazonaws.com/${key}`. -/
def uploadToS3Url (bucket region key : String) : String :=
  "https://" ++ bucket ++ ".s3." ++ region ++ ".amazonaws.com/" ++ key

/-- The row `prisma.audioFile.create` inserts on a successful upload; `newId`
and `now` are the server-assigned identifier and timestamps. -/
def mkUploadedFile (callerId : String) (f : MulterFile) (b : UploadBody)
    (token newId : String) (now : Nat) (bucket region : String) : AudioFile :=
  { id := newId
    title := b.title.getD ""
    description := if truthy b.description then b.description else none
    category := b.category.getD ""
    s3Key := uploadToS3Key callerId token f.originalname
    s3Url := uploadToS3Url bucket region (uploadToS3Key callerId token f.originalname)
    fileName := f.originalname
    fileSize := f.size
    mimeType := f.mimetype
    userId := callerId
    createdAt := now
    updatedAt := now }

/-- `audioController.uploadAudio`: 400 if `req.file` is absent, 400 if
`!title || !category` (JS truthiness), then `uploadToS3` (whose success is the
`s3ok` flag; a throw jumps to the catch block) and only afterwards
`prisma.audioFile.create`.  `validationResult` is never consulted. -/
def uploadAudio (db : Db) (callerId : String) (file : Option MulterFile)
    (b : UploadBody) (token newId : String) (now : Nat) (bucket region : String)
    (s3ok : Bool) : UploadResult × Db × List Effect :=
  match file with
  | none => (.badRequest "No audio file provided", db, [])
  | some f =>
    if !truthy b.title || !truthy b.category then
      (.badRequest "Title and category are required", db, [])
    else if !s3ok then (.storageError, db, [])
    else
      let nf := mkUploadedFile callerId f b token newId now bucket region
      (.created nf, { db with audioFiles := db.audioFiles ++ [nf] },
       [.s3Put nf.s3Key, .dbInsert nf])

/-- The whole `POST /api/audio/upload` route: multer first (rejecting bad MIME
type or oversize before anything else), then the express-validator sanitizers,
then the controller.  The validator chain's recorded errors
(`uploadValidationErrors`) are dropped, as in the source. -/
def postUploadRoute (db : Db) (callerId : String) (file : Option MulterFile)
    (b : UploadBody) (token newId : String) (now : Nat) (bucket region : String)
    (s3ok : Bool) : UploadResult × Db × List Effect :=
  match file with
  | some f =>
    if !multerAccepts f then (.fileRejected, db, [])
    else uploadAudio db callerId (some f) (sanitizeUploadBody b) token newId now bucket region s3ok
  | none => uploadAudio db callerId none (sanitizeUploadBody b) token newId now bucket region s3ok

/-! ## Listing -/

/-- Newest-created-first ordering on audio files (`orderBy: { createdAt: "desc" }`):
`a` may precede `b` when `a` was created no earlier than `b`. -/
def newestFirst (a b : AudioFile) : Prop := b.createdAt ≤ a.createdAt

instance : DecidableRel newestFirst := fun a b => Nat.decLe b.createdAt a.createdAt

instance : IsTotal AudioFile newestFirst :=
  ⟨fun a b => Nat.le_total b.createdAt a.createdAt⟩

instance : IsTrans AudioFile newestFirst :=
  ⟨fun _ _ _ hab hbc => Nat.le_trans hbc hab⟩

/-- The row predicate of `getUserAudioFiles`: always `userId`, plus `category`
exactly when the query parameter is truthy (`if (category) where.category = category`). -/
def listingWhere (callerId : String) (category : Option String) (f : AudioFile) : Bool :=
  f.userId == callerId && (if truthy category then f.category == category.getD "" else true)

/-- `audioController.getUserAudioFiles`: `prisma.audioFile.findMany` with the
built `where` filter, ordered by `createdAt` descending.  The sort is modelled
by insertion sort with the `newestFirst` relation (any stable
newest-first sort has the properties the spec states). -/
def getUserAudioFiles (db : Db) (callerId : String) (category : Option String) :
    List AudioFile :=
  List.insertionSort newestFirst (db.audioFiles.filter (listingWhere callerId category))

/-! ## User controller -/

/-- The body fields of `PUT /api/users/:id`; all optional. -/
structure UserUpdateBody where
  username : Option String
  email : Option String
  password : Option String
deriving Repr, DecidableEq

/-- Validation errors of the user-update route (`user.routes.js`): each field
is `.optional()` (skipped when absent, validated when present, including the
empty string), username at least 3 characters, email well-formed (the opaque
predicate `emailOk`), password at least 6 characters.  `updateUser` does
consult these. -/
def userUpdateValidationErrors (emailOk : String → Bool) (b : UserUpdateBody) :
    List String :=
  (match b.username with
   | none => []
   | some s => if 3 ≤ s.length then [] else ["Username must be at least 3 characters"]) ++
  (match b.email with
   | none => []
   | some s => if emailOk s then [] else ["Invalid email format"]) ++
  (match b.password with
   | none => []
   | some s => if 6 ≤ s.length then [] else ["Password must be at least 6 characters"])

/-- The `select` of `userController.updateUser`'s response:
id, username, email, updatedAt — the password column is excluded. -/
structure UpdatedProfileBody where
  id : String
  username : String
  email : Option String
  updatedAt : Nat
deriving Repr, DecidableEq

/-- Build `updateUser`'s response body from a user row (the Prisma `select`). -/
def updatedProfileBody (u : User) : UpdatedProfileBody :=
  { id := u.id, username := u.username, email := u.email, updatedAt := u.updatedAt }

/-- The `updateData` object applied to a user row: each body field is copied
only when truthy (`if (username) updateData.username = username`, etc.), the
password through the opaque bcrypt `hash`; Prisma's `@updatedAt` refreshes the
timestamp. -/
def applyUserUpdate (hash : String → String) (b : UserUpdateBody) (now : Nat)
    (u : User) : User :=
  { u with
    username := if truthy b.username then b.username.getD u.username else u.username
    email := if truthy b.email then b.email else u.email
    password := if truthy b.password then hash (b.password.getD "") else u.password
    updatedAt := now }

/-- Result of `PUT /api/users/:id`: 400 validation, 403 foreign target,
404 (Prisma P2025 when the row is missing), 409 (Prisma P2002 when a supplied
unique field collides with another row), or 200 with the selected fields. -/
inductive UpdateResult where
  | badRequest
  | forbidden
  | notFound
  | conflict
  | ok (body : UpdatedProfileBody)
deriving Repr, DecidableEq

/-- Whether `prisma.user.update` would raise P2002: some row other than the
target already holds the supplied username, or the supplied (non-null) email —
the `User` table's unique columns. -/
def updateConflict (db : Db) (targetId : String) (b : UserUpdateBody) : Bool :=
  (truthy b.username &&
     db.users.any (fun v => !(v.id == targetId) && v.username == b.username.getD "")) ||
  (truthy b.email &&
     db.users.any (fun v => !(v.id == targetId) && v.email == b.email))

/-- `userController.updateUser`: `validationResult` first (400), then the
identifier-equality authorization check (`req.user.userId !== id` → 403), then
`prisma.user.update({ where: { id } })`, which throws P2025 (→ 404 via the
error handler) when no row has that id and P2002 (→ 409, no field change) when
a supplied username/email duplicates another row's. -/
def updateUser (emailOk : String → Bool) (hash : String → String) (db : Db)
    (callerId targetId : String) (b : UserUpdateBody) (now : Nat) :
    UpdateResult × Db :=
  if !(userUpdateValidationErrors emailOk b).isEmpty then (.badRequest, db)
  else if callerId != targetId then (.forbidden, db)
  else
    match db.users.find? (fun u => u.id == targetId) with
    | none => (.notFound, db)
    | some u =>
      if updateConflict db targetId b then (.conflict, db)
      else
        (.ok (updatedProfileBody (applyUserUpdate hash b now u)),
         { db with
           users := db.users.map
             (fun v => if v.id == targetId then applyUserUpdate hash b now v else v) })

/-- The `select` of `userController.getCurrentUser`: id, username, email and
both timestamps — the password column is excluded. -/
structure ProfileBody where
  id : String
  username : String
  email : Option String
  createdAt : Nat
  updatedAt : Nat
deriving Repr, DecidableEq

/-- Build `getCurrentUser`'s response body from a user row. -/
def profileBody (u : User) : ProfileBody :=
  { id := u.id, username := u.username, email := u.email,
    createdAt := u.createdAt, updatedAt := u.updatedAt }

/-- Result of `GET /api/users/me`. -/
inductive MeResult where
  | notFound
  | ok (body : ProfileBody)
deriving Repr, DecidableEq

/-- `userController.getCurrentUser`: look up the caller's row, 404 if absent,
otherwise the selected non-secret fields. -/
def getCurrentUser (db : Db) (callerId : String) : MeResult :=
  match db.users.find? (fun u => u.id == callerId) with
  | none => .notFound
  | some u => .ok (profileBody u)

/-! ## Auth controller -/

/-- The `user` object of login/register responses: id, username, email. -/
structure UserInfo where
  id : String
  username : String
  email : Option String
deriving Repr, DecidableEq

/-- Success body of login/register: `{ token, user: { id, username, email } }`
where the token is `jwt.sign({ userId, username }, secret)` — the opaque
`sign` applied to id and username only. -/
structure AuthBody where
  token : String
  user : UserInfo
deriving Repr, DecidableEq

/-- Build the login/register success body from a user row. -/
def authSuccessBody (sign : String → String → String) (u : User) : AuthBody :=
  { token := sign u.id u.username,
    user := { id := u.id, username := u.username, email := u.email } }

/-- Errors recorded by a `.notEmpty()` validator on a body field. -/
def notEmptyErrors (field : Option String) (msg : String) : List String :=
  match field with
  | none => [msg]
  | some s => if s == "" then [msg] else []

/-- Result of `POST /api/auth/login`. -/
inductive LoginResult where
  | badRequest
  | invalidCredentials
  | ok (body : AuthBody)
deriving Repr, DecidableEq

/-- `authController.login`: `validationResult` (both fields `.notEmpty()`),
find the row by username (generic 401 when absent), `bcrypt.compare` against
the stored hash (the opaque `compare`, 401 on mismatch), then the token and
the non-secret user fields. -/
def login (sign : String → String → String) (compare : String → String → Bool)
    (db : Db) (username password : Option String) : LoginResult :=
  if !(notEmptyErrors username "Username is required" ++
       notEmptyErrors password "Password is required").isEmpty then .badRequest
  else
    match db.users.find? (fun u => u.username == username.getD "") with
    | none => .invalidCredentials
    | some u =>
      if !compare (password.getD "") u.password then .invalidCredentials
      else .ok (authSuccessBody sign u)

/-- Validation errors of the register route: username at least 3, password at
least 6, email optional but well-formed. -/
def registerValidationErrors (emailOk : String → Bool)
    (username password email : Option String) : List String :=
  (match username with
   | none => ["Username must be at least 3 characters"]
   | some s => if 3 ≤ s.length then [] else ["Username must be at least 3 characters"]) ++
  (match password with
   | none => ["Password must be at least 6 characters"]
   | some s => if 6 ≤ s.length then [] else ["Password must be at least 6 characters"]) ++
  (match email with
   | none => []
   | some s => if emailOk s then [] else ["Invalid email format"])

/-- Result of `POST /api/auth/register`: 400 validation, 409 (Prisma P2002 on
a duplicate unique username/email), or 201 with token and non-secret fields. -/
inductive RegisterResult where
  | badRequest
  | conflict
  | created (body : AuthBody)
deriving Repr, DecidableEq

/-- `email || null` of the register body: an absent or empty email is stored
as null. -/
def registerEmail (email : Option String) : Option String :=
  match email with
  | some e => if e == "" then none else some e
  | none => none

/-- The user row `prisma.user.create` inserts on registration: the
bcrypt-hashed password, `email || null`, server-assigned id and timestamps. -/
def mkRegisteredUser (hash : String → String) (username password email : Option String)
    (newId : String) (now : Nat) : User :=
  { id := newId, username := username.getD "", password := hash (password.getD ""),
    email := registerEmail email, createdAt := now, updatedAt := now }

/-- `authController.register`: validation, then `prisma.user.create` with the
bcrypt-hashed password and `email || null`; a uniqueness collision on username
or (non-null) email raises P2002 → 409.  `newId`/`now` are server-assigned. -/
def register (sign : String → String → String) (hash : String → String)
    (emailOk : String → Bool) (db : Db) (username password email : Option String)
    (newId : String) (now : Nat) : RegisterResult × Db :=
  if !(registerValidationErrors emailOk username password email).isEmpty then
    (.badRequest, db)
  else if db.users.any (fun u => u.username == username.getD "") then (.conflict, db)
  else if (registerEmail email).isSome &&
          db.users.any (fun u => u.email == registerEmail email) then (.conflict, db)
  else
    (.created (authSuccessBody sign (mkRegisteredUser hash username password email newId now)),
     { db with users := db.users ++ [mkRegisteredUser hash username password email newId now] })

/-- Replace a user row's stored password hash, leaving every other column
unchanged; used to state that responses are independent of the secret. -/
def setPassword (u : User) (p : String) : User := { u with password := p }

/-! ## Concrete data for counterexamples and witnesses -/

/-- A registered account; its stored hash is `demoHash "secret1"`. -/
def demoUser : User :=
  { id := "u1", username := "alice", password := "secret1#",
    email := some "alice@example.com", createdAt := 1, updatedAt := 1 }

/-- An asset owned by `u1`. -/
def demoAsset : AudioFile :=
  { id := "a1", title := "First Song", description := none, category := "Music",
    s3Key := "audio/u1/t0-song.mp3",
    s3Url := "https://bkt.s3.reg.amazonaws.com/audio/u1/t0-song.mp3",
    fileName := "song.mp3", fileSize := 100, mimeType := "audio/mpeg",
    userId := "u1", createdAt := 5, updatedAt := 5 }

/-- A second, later asset owned by `u1`. -/
def demoAsset2 : AudioFile :=
  { id := "a2", title := "Second Song", description := some "d", category := "Music",
    s3Key := "audio/u1/t2-other.mp3",
    s3Url := "https://bkt.s3.reg.amazonaws.com/audio/u1/t2-other.mp3",
    fileName := "other.mp3", fileSize := 200, mimeType := "audio/mpeg",
    userId := "u1", createdAt := 9, updatedAt := 9 }

/-- A database with one account and its two assets. -/
def demoDb : Db := { users := [demoUser], audioFiles := [demoAsset, demoAsset2] }

/-- The empty database. -/
def emptyDb : Db := { users := [], audioFiles := [] }

/-- A concrete token signer standing in for `jwt.sign`. -/
def demoSign : String → String → String := fun i n => "tok:" ++ i ++ ":" ++ n

/-- A concrete one-way function standing in for `bcrypt.hash`. -/
def demoHash : String → String := fun p => p ++ "#"

/-- The matching comparison standing in for `bcrypt.compare`. -/
def demoCompare : String → String → Bool := fun p h => (p ++ "#") == h

/-- A concrete e-mail format predicate; like `isEmail`, it rejects the empty
string. -/
def demoEmailOk : String → Bool := fun s => !(s == "")

/-- A concrete presigner standing in for `getPresignedUrl`. -/
def demoPresign : String → String := fun k => "signed:" ++ k

/-- A well-formed multer file. -/
def mp3File : MulterFile :=
  { originalname := "song.mp3", size := 1000, mimetype := "audio/mpeg" }

/-- An upload body whose category is outside the enumeration. -/
def jazzBody : UploadBody :=
  { title := some "My Jazz Mix", description := none, category := some "Jazz" }

/-- An upload body with the given title and category `Music`. -/
def musicBody (t : String) : UploadBody :=
  { title := some t, description := none, category := some "Music" }

/-- A 200-character title. -/
def title200 : String := String.mk (List.replicate 200 'a')

/-- A 201-character title. -/
def title201 : String := String.mk (List.replicate 201 'a')

/-- An account-update body supplying only a new password. -/
def pwBody : UserUpdateBody :=
  { username := none, email := none, password := some "secret77" }

/-- A second registered account, for unique-constraint collision scenarios. -/
def demoUser2 : User :=
  { id := "u2", username := "bob", password := "secret2#",
    email := some "bob@example.com", createdAt := 2, updatedAt := 2 }

/-- A database with two accounts and `u1`'s two assets. -/
def demoDb2 : Db :=
  { users := [demoUser, demoUser2], audioFiles := [demoAsset, demoAsset2] }

/-- An account-update body supplying a username already held by `u2`. -/
def takenNameBody : UserUpdateBody :=
  { username := some "bob", email := none, password := none }

/-! ## Handler characterization lemmas -/

theorem getAudioFile_ok_owner {db : Db} {c id : String} {f : AudioFile}
    (h : getAudioFile db c id = .ok f) :
    findUniqueAudio db id = some f ∧ f.userId = c := by
  cases hfind : findUniqueAudio db id with
  | none => simp [getAudioFile, hfind] at h
  | some g =>
    simp only [getAudioFile, hfind] at h
    split at h
    · exact absurd h (by simp)
    · next hcond =>
      injection h with h2
      subst h2
      exact ⟨rfl, by simpa using hcond⟩

theorem getPlaybackUrl_ok_owner {presign : String → String} {db : Db}
    {c id url : String} (h : getPlaybackUrl presign db c id = .ok url) :
    ∃ f, findUniqueAudio db id = some f ∧ f.userId = c ∧ url = presign f.s3Key := by
  cases hfind : findUniqueAudio db id with
  | none => simp [getPlaybackUrl, hfind] at h
  | some g =>
    simp only [getPlaybackUrl, hfind] at h
    split at h
    · exact absurd h (by simp)
    · next hcond =>
      injection h with h2
      exact ⟨g, rfl, by simpa using hcond, h2.symm⟩

theorem getAudioFile_of_none {db : Db} {c id : String}
    (h : findUniqueAudio db id = none) : getAudioFile db c id = .notFound := by
  simp [getAudioFile, h]

theorem getPlaybackUrl_of_none {presign : String → String} {db : Db} {c id : String}
    (h : findUniqueAudio db id = none) : getPlaybackUrl presign db c id = .notFound := by
  simp [getPlaybackUrl, h]

theorem deleteAudio_of_none {db : Db} {c id : String} {s3ok : Bool}
    (h : findUniqueAudio db id = none) : deleteAudio db c id s3ok = (.notFound, db, []) := by
  simp [deleteAudio, h]

theorem getAudioFile_of_notOwner {db : Db} {c id : String} {f : AudioFile}
    (h : findUniqueAudio db id = some f) (hne : f.userId ≠ c) :
    getAudioFile db c id = .forbidden := by
  simp [getAudioFile, h, hne]

theorem getPlaybackUrl_of_notOwner {presign : String → String} {db : Db}
    {c id : String} {f : AudioFile} (h : findUniqueAudio db id = some f)
    (hne : f.userId ≠ c) : getPlaybackUrl presign db c id = .forbidden := by
  simp [getPlaybackUrl, h, hne]

theorem deleteAudio_of_notOwner {db : Db} {c id : String} {f : AudioFile} {s3ok : Bool}
    (h : findUniqueAudio db id = some f) (hne : f.userId ≠ c) :
    deleteAudio db c id s3ok = (.forbidden, db, []) := by
  simp [deleteAudio, h, hne]

theorem deleteAudio_owner_s3fail {db : Db} {c id : String} {f : AudioFile}
    (h : findUniqueAudio db id = some f) (hown : f.userId = c) :
    deleteAudio db c id false = (.storageError, db, []) := by
  simp [deleteAudio, h, hown]

theorem deleteAudio_owner_s3ok {db : Db} {c id : String} {f : AudioFile}
    (h : findUniqueAudio db id = some f) (hown : f.userId = c) :
    deleteAudio db c id true =
      (.ok, { db with audioFiles := db.audioFiles.filter (fun g => !(g.id == id)) },
       [.s3Delete f.s3Key, .dbDelete id]) := by
  simp [deleteAudio, h, hown]

/-! ## C1 -/

/-- C1 counterexample: the claim says no operation — including the
duplicate-name probe — returns an asset's metadata to a caller other than its
owner.  But `GET /audio/check/:fileName/:userId` scopes its lookup by the
`userId` taken from the URL, not by the authenticated caller: caller `u2`
obtains the full metadata of `u1`'s asset. -/
theorem c1_check_leaks_to_nonowner :
    getAudioFileByName demoDb "u2" "song.mp3" "u1" =
      .found checkFoundMessage demoAsset ∧
    demoAsset.userId ≠ "u2" := by
  constructor
  · rfl
  · decide

/-- C1 (amended): single-asset read, playback and delete, and the listing,
return or mutate only assets owned by the authenticated caller; the
duplicate-name probe, however, answers from the assets of whatever account
identifier is supplied in the URL, entirely independent of the caller's
identity. -/
theorem c1_owner_only_except_check (presign : String → String) (db : Db)
    (caller caller' id fn uid : String) (cat : Option String) (s3ok : Bool) :
    (∀ f, getAudioFile db caller id = .ok f → f.userId = caller) ∧
    (∀ url, getPlaybackUrl presign db caller id = .ok url →
       ∃ f, findUniqueAudio db id = some f ∧ f.userId = caller) ∧
    ((deleteAudio db caller id s3ok).2.1 ≠ db →
       ∃ f, findUniqueAudio db id = some f ∧ f.userId = caller) ∧
    (∀ f, f ∈ getUserAudioFiles db caller cat → f.userId = caller) ∧
    (getAudioFileByName db caller fn uid = getAudioFileByName db caller' fn uid) ∧
    (∀ m f, getAudioFileByName db caller fn uid = .found m f →
       f.fileName = fn ∧ f.userId = uid) := by
  refine ⟨?_, ?_, ?_, ?_, rfl, ?_⟩
  · intro f h
    exact (getAudioFile_ok_owner h).2
  · intro url h
    obtain ⟨f, hf, hown, _⟩ := getPlaybackUrl_ok_owner h
    exact ⟨f, hf, hown⟩
  · intro hne
    cases hfind : findUniqueAudio db id with
    | none => exact absurd (by rw [deleteAudio_of_none hfind]) hne
    | some f =>
      by_cases hown : f.userId = caller
      · exact ⟨f, rfl, hown⟩
      · exact absurd (by rw [deleteAudio_of_notOwner hfind hown]) hne
  · intro f hf
    unfold getUserAudioFiles at hf
    rw [List.mem_insertionSort, List.mem_filter] at hf
    have hw := hf.2
    unfold listingWhere at hw
    have := (Bool.and_eq_true _ _).mp hw
    exact eq_of_beq this.1
  · intro m f h
    unfold getAudioFileByName at h
    cases hfind : findFirstAudioByNameUser db fn uid <;> rw [hfind] at h
    · exact absurd h (by simp)
    · next g =>
      injection h with h1 h2
      subst h2
      have hp := List.find?_some hfind
      have := (Bool.and_eq_true _ _).mp hp
      exact ⟨eq_of_beq this.1, eq_of_beq this.2⟩

/-- Witness for the amended C1 at concrete inputs, exercising every branch. -/
theorem c1_owner_only_except_check_witness :
    demoAsset.userId = "u1" ∧
    (∃ f, findUniqueAudio demoDb "a1" = some f ∧ f.userId = "u1") ∧
    (∃ f, findUniqueAudio demoDb "a1" = some f ∧ f.userId = "u1") ∧
    demoAsset2.userId = "u1" ∧
    (demoAsset.fileName = "song.mp3" ∧ demoAsset.userId = "u1") :=
  ⟨(c1_owner_only_except_check demoPresign demoDb "u1" "u2" "a1" "song.mp3" "u1"
      none true).1 demoAsset rfl,
   (c1_owner_only_except_check demoPresign demoDb "u1" "u2" "a1" "song.mp3" "u1"
      none true).2.1 (demoPresign demoAsset.s3Key) rfl,
   (c1_owner_only_except_check demoPresign demoDb "u1" "u2" "a1" "song.mp3" "u1"
      none true).2.2.1 (by decide),
   (c1_owner_only_except_check demoPresign demoDb "u1" "u2" "a1" "song.mp3" "u1"
      none true).2.2.2.1 demoAsset2 (by decide),
   (c1_owner_only_except_check demoPresign demoDb "u1" "u2" "a1" "song.mp3" "u1"
      none true).2.2.2.2.2 checkFoundMessage demoAsset rfl⟩

/-! ## C2 -/

/-- C2: on read-single, playback and delete, a nonexistent identifier yields
not-found (with no state change and no effects), and an existing asset whose
owner differs from the caller yields forbidden, carrying no data, with no
state change and no effects. -/
theorem c2_notFound_before_forbidden (presign : String → String) (db : Db)
    (caller idA idB : String) (s3ok : Bool) :
    (findUniqueAudio db idA = none →
       getAudioFile db caller idA = .notFound ∧
       getPlaybackUrl presign db caller idA = .notFound ∧
       deleteAudio db caller idA s3ok = (.notFound, db, [])) ∧
    (∀ f, findUniqueAudio db idB = some f → f.userId ≠ caller →
       getAudioFile db caller idB = .forbidden ∧
       getPlaybackUrl presign db caller idB = .forbidden ∧
       deleteAudio db caller idB s3ok = (.forbidden, db, [])) := by
  constructor
  · intro h
    exact ⟨getAudioFile_of_none h, getPlaybackUrl_of_none h, deleteAudio_of_none h⟩
  · intro f h hne
    exact ⟨getAudioFile_of_notOwner h hne, getPlaybackUrl_of_notOwner h hne,
           deleteAudio_of_notOwner h hne⟩

/-- Witness for C2: a missing identifier and a foreign-owned asset in `demoDb`. -/
theorem c2_notFound_before_forbidden_witness :
    (getAudioFile demoDb "u2" "zzz" = .notFound ∧
     getPlaybackUrl demoPresign demoDb "u2" "zzz" = .notFound ∧
     deleteAudio demoDb "u2" "zzz" true = (.notFound, demoDb, [])) ∧
    (getAudioFile demoDb "u2" "a1" = .forbidden ∧
     getPlaybackUrl demoPresign demoDb "u2" "a1" = .forbidden ∧
     deleteAudio demoDb "u2" "a1" true = (.forbidden, demoDb, [])) :=
  ⟨(c2_notFound_before_forbidden demoPresign demoDb "u2" "zzz" "a1" true).1 (by decide),
   (c2_notFound_before_forbidden demoPresign demoDb "u2" "zzz" "a1" true).2 demoAsset
     (by decide) (by decide)⟩

/-! ## C3 -/

/-- C3: on any upload request, if the blob write fails the registry is left
unchanged and no registry insert happens; when the controller's checks pass
and the blob write succeeds, the effect trace is exactly the blob write
followed by the record insert (in that order), and the 201 response carries
the full created row with the server-assigned identifier and timestamps. -/
theorem c3_upload_blob_before_record (db : Db) (caller : String)
    (file : Option MulterFile) (b : UploadBody) (token newId : String) (now : Nat)
    (bucket region : String) :
    ((uploadAudio db caller file b token newId now bucket region false).2.1 = db ∧
     (uploadAudio db caller file b token newId now bucket region false).2.2 = []) ∧
    (∀ f, file = some f → truthy b.title = true → truthy b.category = true →
       uploadAudio db caller file b token newId now bucket region true =
         (.created (mkUploadedFile caller f b token newId now bucket region),
          { db with audioFiles :=
              db.audioFiles ++ [mkUploadedFile caller f b token newId now bucket region] },
          [.s3Put (mkUploadedFile caller f b token newId now bucket region).s3Key,
           .dbInsert (mkUploadedFile caller f b token newId now bucket region)]) ∧
       (mkUploadedFile caller f b token newId now bucket region).id = newId ∧
       (mkUploadedFile caller f b token newId now bucket region).createdAt = now ∧
       (mkUploadedFile caller f b token newId now bucket region).updatedAt = now ∧
       (mkUploadedFile caller f b token newId now bucket region).userId = caller) := by
  constructor
  · cases file with
    | none => exact ⟨rfl, rfl⟩
    | some f =>
      cases htl : truthy b.title <;> cases hcat : truthy b.category <;>
        simp [uploadAudio, htl, hcat]
  · rintro f rfl ht hc
    refine ⟨?_, rfl, rfl, rfl, rfl⟩
    unfold uploadAudio
    rw [ht, hc]
    rfl

/-- Witness for C3 at a concrete upload. -/
theorem c3_upload_blob_before_record_witness :
    uploadAudio emptyDb "u1" (some mp3File) (musicBody "Hello") "t1" "a7" 11 "bkt" "reg" true =
      (.created (mkUploadedFile "u1" mp3File (musicBody "Hello") "t1" "a7" 11 "bkt" "reg"),
       { emptyDb with audioFiles :=
           emptyDb.audioFiles ++ [mkUploadedFile "u1" mp3File (musicBody "Hello") "t1" "a7" 11 "bkt" "reg"] },
       [.s3Put (mkUploadedFile "u1" mp3File (musicBody "Hello") "t1" "a7" 11 "bkt" "reg").s3Key,
        .dbInsert (mkUploadedFile "u1" mp3File (musicBody "Hello") "t1" "a7" 11 "bkt" "reg")]) ∧
    (mkUploadedFile "u1" mp3File (musicBody "Hello") "t1" "a7" 11 "bkt" "reg").id = "a7" ∧
    (mkUploadedFile "u1" mp3File (musicBody "Hello") "t1" "a7" 11 "bkt" "reg").createdAt = 11 ∧
    (mkUploadedFile "u1" mp3File (musicBody "Hello") "t1" "a7" 11 "bkt" "reg").updatedAt = 11 ∧
    (mkUploadedFile "u1" mp3File (musicBody "Hello") "t1" "a7" 11 "bkt" "reg").userId = "u1" :=
  (c3_upload_blob_before_record emptyDb "u1" (some mp3File) (musicBody "Hello")
    "t1" "a7" 11 "bkt" "reg").2 mp3File rfl (by decide) (by decide)

/-! ## C4 -/

/-- C4: deleting an existing, caller-owned asset deletes the blob first and
the record only afterwards (the effect trace is the S3 delete followed by the
registry delete); if the blob deletion fails, the record remains intact (the
registry is unchanged, no registry delete happened) and the caller sees a
storage error. -/
theorem c4_delete_blob_first (db : Db) (caller id : String) (f : AudioFile)
    (hfind : findUniqueAudio db id = some f) (hown : f.userId = caller) :
    deleteAudio db caller id false = (.storageError, db, []) ∧
    deleteAudio db caller id true =
      (.ok, { db with audioFiles := db.audioFiles.filter (fun g => !(g.id == id)) },
       [.s3Delete f.s3Key, .dbDelete id]) :=
  ⟨deleteAudio_owner_s3fail hfind hown, deleteAudio_owner_s3ok hfind hown⟩

/-- Witness for C4: deleting `u1`'s asset `a1`. -/
theorem c4_delete_blob_first_witness :
    deleteAudio demoDb "u1" "a1" false = (.storageError, demoDb, []) ∧
    deleteAudio demoDb "u1" "a1" true =
      (.ok, { demoDb with audioFiles := demoDb.audioFiles.filter (fun g => !(g.id == "a1")) },
       [.s3Delete demoAsset.s3Key, .dbDelete "a1"]) :=
  c4_delete_blob_first demoDb "u1" "a1" demoAsset (by decide) (by decide)

/-! ## C5 -/

/-- C5 evaluated on the code: `"Jazz"` is outside the enumeration and the
route's validator chain records `"Invalid category"` for it, yet the request
is not rejected — the audio controller never consults `validationResult`, so
the upload proceeds to the Blob Store and the registry and a row with
category `"Jazz"` is created and returned with 201. -/
theorem c5_jazz_category_not_rejected :
    CATEGORIES.contains "Jazz" = false ∧
    uploadValidationErrors (sanitizeUploadBody jazzBody) = ["Invalid category"] ∧
    postUploadRoute emptyDb "u1" (some mp3File) jazzBody "t1" "a7" 11 "bkt" "reg" true =
      (.created (mkUploadedFile "u1" mp3File (sanitizeUploadBody jazzBody) "t1" "a7" 11 "bkt" "reg"),
       { emptyDb with audioFiles :=
           [mkUploadedFile "u1" mp3File (sanitizeUploadBody jazzBody) "t1" "a7" 11 "bkt" "reg"] },
       [.s3Put (mkUploadedFile "u1" mp3File (sanitizeUploadBody jazzBody) "t1" "a7" 11 "bkt" "reg").s3Key,
        .dbInsert (mkUploadedFile "u1" mp3File (sanitizeUploadBody jazzBody) "t1" "a7" 11 "bkt" "reg")]) ∧
    (mkUploadedFile "u1" mp3File (sanitizeUploadBody jazzBody) "t1" "a7" 11 "bkt" "reg").category =
      "Jazz" := by
  refine ⟨rfl, by decide, by decide, rfl⟩

/-! ## C6 -/

set_option maxRecDepth 16000 in
/-- C6 evaluated on the code: a 200-character title is accepted and an empty
title is rejected, as the claim says; but a 201-character title, although the
route's validator records an error for it, is likewise accepted — the audio
controller never consults `validationResult`, so the record is created with
the 201-character title and returned with 201 Created. -/
theorem c6_title_bounds_not_enforced :
    title200.length = 200 ∧
    title201.length = 201 ∧
    (postUploadRoute emptyDb "u1" (some mp3File) (musicBody title200) "t1" "a7" 11 "bkt" "reg" true).1 =
      .created (mkUploadedFile "u1" mp3File (sanitizeUploadBody (musicBody title200)) "t1" "a7" 11 "bkt" "reg") ∧
    (postUploadRoute emptyDb "u1" (some mp3File) (musicBody "") "t1" "a7" 11 "bkt" "reg" true).1 =
      .badRequest "Title and category are required" ∧
    uploadValidationErrors (sanitizeUploadBody (musicBody title201)) =
      ["Title is required and must be less than 200 characters"] ∧
    (postUploadRoute emptyDb "u1" (some mp3File) (musicBody title201) "t1" "a7" 11 "bkt" "reg" true).1 =
      .created (mkUploadedFile "u1" mp3File (sanitizeUploadBody (musicBody title201)) "t1" "a7" 11 "bkt" "reg") ∧
    (mkUploadedFile "u1" mp3File (sanitizeUploadBody (musicBody title201)) "t1" "a7" 11 "bkt" "reg").title =
      title201 := by
  refine ⟨by decide, by decide, by decide, by decide, by decide, by decide, by decide⟩

/-! ## C7 -/

/-- The listing the spec describes (§4.3), stated from the spec's words:
every asset owned by the identity, narrowed to the given category when a
filter is present. -/
def specOwnedListing (db : Db) (callerId : String) (filter : Option String) :
    List AudioFile :=
  db.audioFiles.filter (fun f => f.userId == callerId &&
    (match filter with
     | some c => f.category == c
     | none => true))

/-- C7: for any identity and any optional category filter drawn from the
enumeration, the listing is a permutation of exactly the caller's assets
narrowed to the filter (all of them — no pagination), and is sorted
newest-created first. -/
theorem c7_listing_owned_sorted (db : Db) (caller : String) (filter : Option String)
    (hfilter : ∀ c, filter = some c → c ∈ CATEGORIES) :
    (getUserAudioFiles db caller filter).Perm (specOwnedListing db caller filter) ∧
    List.Sorted newestFirst (getUserAudioFiles db caller filter) := by
  have key : db.audioFiles.filter (listingWhere caller filter) =
      specOwnedListing db caller filter := by
    unfold specOwnedListing
    apply List.filter_congr
    intro f _
    cases filter with
    | none => simp [listingWhere, truthy]
    | some c =>
      have hc : c ∈ CATEGORIES := hfilter c rfl
      have hcne : (c == "") = false := by
        cases hx : c == "" with
        | false => rfl
        | true =>
          have hce : c = "" := eq_of_beq hx
          subst hce
          exact absurd hc (by decide)
      simp [listingWhere, truthy, hcne]
  constructor
  · unfold getUserAudioFiles
    rw [key]
    exact List.perm_insertionSort newestFirst _
  · exact List.sorted_insertionSort newestFirst _

/-- Witness for C7: listing `u1`'s assets filtered to `Music` in `demoDb`. -/
theorem c7_listing_owned_sorted_witness :
    (getUserAudioFiles demoDb "u1" (some "Music")).Perm
      (specOwnedListing demoDb "u1" (some "Music")) ∧
    List.Sorted newestFirst (getUserAudioFiles demoDb "u1" (some "Music")) :=
  c7_listing_owned_sorted demoDb "u1" (some "Music")
    (fun c h => by injection h with h1; subst h1; decide)

/-! ## C8 -/

/-- C8: the storage key combines the owner's namespace segment, the fresh
random token and the original filename, and for the same owner and filename,
distinct tokens always give distinct keys. -/
theorem c8_key_combines_and_injective (u f t1 t2 : String) (h : t1 ≠ t2) :
    uploadToS3Key u t1 f = "audio/" ++ u ++ "/" ++ t1 ++ "-" ++ f ∧
    uploadToS3Key u t1 f ≠ uploadToS3Key u t2 f := by
  refine ⟨rfl, ?_⟩
  intro heq
  apply h
  have hd := congrArg String.data heq
  simp only [uploadToS3Key, String.data_append] at hd
  exact String.ext
    (List.append_cancel_left (List.append_cancel_right (List.append_cancel_right hd)))

/-- Witness for C8 at concrete owner, filename and tokens. -/
theorem c8_key_combines_and_injective_witness :
    uploadToS3Key "u1" "t1" "song.mp3" =
      "audio/" ++ "u1" ++ "/" ++ "t1" ++ "-" ++ "song.mp3" ∧
    uploadToS3Key "u1" "t1" "song.mp3" ≠ uploadToS3Key "u1" "t2" "song.mp3" :=
  c8_key_combines_and_injective "u1" "song.mp3" "t1" "t2" (by decide)

/-! ## C9 -/

/-- A nonempty-by-length string field is truthy. -/
theorem truthy_of_pos_length {s : String} (h : 1 ≤ s.length) :
    truthy (some s) = true := by
  have hne : s ≠ "" := by
    intro he
    exact absurd (he ▸ h) (by decide)
  simp [truthy, hne]

/-- C9: for validated account-update requests: a target identifier different
from the caller's is rejected with forbidden and the database is unchanged; a
self-update whose supplied username or email collides with another account
raises the unique-constraint conflict (Prisma P2002 → 409) and changes no
field; otherwise, on a self-update of an existing account, exactly the
supplied fields take their new values (a supplied secret through the hash),
every unsupplied field keeps its previous value, and the identifier is
unchanged. -/
theorem c9_update_own_fields_only (emailOk : String → Bool) (hash : String → String)
    (db : Db) (caller target : String) (now : Nat)
    (hemailOk : emailOk "" = false) :
    (∀ b, userUpdateValidationErrors emailOk b = [] → caller ≠ target →
       updateUser emailOk hash db caller target b now = (.forbidden, db)) ∧
    (∀ b u, userUpdateValidationErrors emailOk b = [] →
       db.users.find? (fun v => v.id == target) = some u →
       updateConflict db target b = true →
       updateUser emailOk hash db target target b now = (.conflict, db)) ∧
    (∀ b u, userUpdateValidationErrors emailOk b = [] →
       db.users.find? (fun v => v.id == target) = some u →
       updateConflict db target b = false →
       updateUser emailOk hash db target target b now =
         (.ok (updatedProfileBody (applyUserUpdate hash b now u)),
          { db with
            users := db.users.map
              (fun v => if v.id == target then applyUserUpdate hash b now v else v) }) ∧
       (applyUserUpdate hash b now u).id = u.id ∧
       (b.username = none → (applyUserUpdate hash b now u).username = u.username) ∧
       (b.email = none → (applyUserUpdate hash b now u).email = u.email) ∧
       (b.password = none → (applyUserUpdate hash b now u).password = u.password) ∧
       (∀ s, b.username = some s → (applyUserUpdate hash b now u).username = s) ∧
       (∀ e, b.email = some e → (applyUserUpdate hash b now u).email = some e) ∧
       (∀ p, b.password = some p → (applyUserUpdate hash b now u).password = hash p)) := by
  refine ⟨?_, ?_, ?_⟩
  · intro b hval hne
    unfold updateUser
    rw [hval]
    simp [hne]
  · intro b u hval hfind hconf
    unfold updateUser
    rw [hval]
    simp [hfind, hconf]
  · intro b u hval hfind hconf
    obtain ⟨hAB, hC⟩ := List.append_eq_nil.mp hval
    obtain ⟨hA, hB⟩ := List.append_eq_nil.mp hAB
    refine ⟨?_, rfl, ?_, ?_, ?_, ?_, ?_, ?_⟩
    · unfold updateUser
      rw [hval]
      simp [hfind, hconf]
    · intro h
      simp [applyUserUpdate, h, truthy]
    · intro h
      simp [applyUserUpdate, h, truthy]
    · intro h
      simp [applyUserUpdate, h, truthy]
    · intro s hs
      rw [hs] at hA
      have hlen : 3 ≤ s.length := by
        by_contra hn
        simp [hn] at hA
      simp [applyUserUpdate, hs, truthy_of_pos_length (Nat.le_trans (by decide) hlen)]
    · intro e he
      rw [he] at hB
      have hok : emailOk e = true := by
        by_contra hn
        simp [hn] at hB
      have hne : e ≠ "" := by
        intro hee
        rw [hee, hemailOk] at hok
        exact Bool.noConfusion hok
      simp [applyUserUpdate, he, truthy, hne]
    · intro p hp
      rw [hp] at hC
      have hlen : 6 ≤ p.length := by
        by_contra hn
        simp [hn] at hC
      simp [applyUserUpdate, hp, truthy_of_pos_length (Nat.le_trans (by decide) hlen)]

/-- Witness for C9: in a two-account database, a foreign-target update is
forbidden, a self-update to the other account's username is a conflict that
leaves the database unchanged, and a self-update supplying only a password
succeeds storing the hash of the supplied password with the other fields
retained. -/
theorem c9_update_own_fields_only_witness :
    updateUser demoEmailOk demoHash demoDb2 "u2" "u1" pwBody 9 = (.forbidden, demoDb2) ∧
    updateUser demoEmailOk demoHash demoDb2 "u1" "u1" takenNameBody 9 =
      (.conflict, demoDb2) ∧
    updateUser demoEmailOk demoHash demoDb2 "u1" "u1" pwBody 9 =
      (.ok (updatedProfileBody (applyUserUpdate demoHash pwBody 9 demoUser)),
       { demoDb2 with
         users := demoDb2.users.map
           (fun v => if v.id == "u1" then applyUserUpdate demoHash pwBody 9 v else v) }) ∧
    (applyUserUpdate demoHash pwBody 9 demoUser).username = demoUser.username ∧
    (applyUserUpdate demoHash pwBody 9 demoUser).email = demoUser.email ∧
    (applyUserUpdate demoHash pwBody 9 demoUser).password = demoHash "secret77" :=
  ⟨(c9_update_own_fields_only demoEmailOk demoHash demoDb2 "u2" "u1" 9 rfl).1
     pwBody rfl (by decide),
   (c9_update_own_fields_only demoEmailOk demoHash demoDb2 "u2" "u1" 9 rfl).2.1
     takenNameBody demoUser rfl rfl rfl,
   ((c9_update_own_fields_only demoEmailOk demoHash demoDb2 "u2" "u1" 9 rfl).2.2
     pwBody demoUser rfl rfl rfl).1,
   ((c9_update_own_fields_only demoEmailOk demoHash demoDb2 "u2" "u1" 9 rfl).2.2
     pwBody demoUser rfl rfl rfl).2.2.1 rfl,
   ((c9_update_own_fields_only demoEmailOk demoHash demoDb2 "u2" "u1" 9 rfl).2.2
     pwBody demoUser rfl rfl rfl).2.2.2.1 rfl,
   ((c9_update_own_fields_only demoEmailOk demoHash demoDb2 "u2" "u1" 9 rfl).2.2
     pwBody demoUser rfl rfl rfl).2.2.2.2.2.2.2 "secret77" rfl⟩

/-! ## C10 -/

/-- C10: every success body of login, register, get-current-user and
account-update equals the body built from the source user row with its stored
password hash replaced by an arbitrary string — the response is a function of
the non-secret columns only, so the hash can never appear in it. -/
theorem c10_responses_password_free (sign : String → String → String)
    (compare : String → String → Bool) (emailOk : String → Bool)
    (hash : String → String) (db : Db) (unL pwL unR pwR emR : Option String)
    (callerId caller target newId : String) (b : UserUpdateBody) (now : Nat)
    (p : String) :
    (∀ body, login sign compare db unL pwL = .ok body →
       ∃ u, db.users.find? (fun v => v.username == unL.getD "") = some u ∧
            body = authSuccessBody sign (setPassword u p)) ∧
    (∀ body db2, register sign hash emailOk db unR pwR emR newId now =
        (.created body, db2) →
       ∃ u, db2.users = db.users ++ [u] ∧
            body = authSuccessBody sign (setPassword u p)) ∧
    (∀ body, getCurrentUser db callerId = .ok body →
       ∃ u, db.users.find? (fun v => v.id == callerId) = some u ∧
            body = profileBody (setPassword u p)) ∧
    (∀ body db2, updateUser emailOk hash db caller target b now = (.ok body, db2) →
       ∃ u, db.users.find? (fun v => v.id == target) = some u ∧
            body = updatedProfileBody (setPassword (applyUserUpdate hash b now u) p)) := by
  refine ⟨?_, ?_, ?_, ?_⟩
  · intro body h
    unfold login at h
    split at h
    · exact absurd h (by simp)
    · split at h
      · exact absurd h (by simp)
      · next u heq =>
        split at h
        · exact absurd h (by simp)
        · injection h with hb
          exact ⟨u, heq, hb ▸ rfl⟩
  · intro body db2 h
    unfold register at h
    split at h
    · exact absurd h (by simp)
    · split at h
      · exact absurd h (by simp)
      · split at h
        · exact absurd h (by simp)
        · rw [Prod.mk.injEq] at h
          obtain ⟨h1, h2⟩ := h
          injection h1 with hb
          exact ⟨mkRegisteredUser hash unR pwR emR newId now,
                 (congrArg Db.users h2).symm, hb ▸ rfl⟩
  · intro body h
    unfold getCurrentUser at h
    split at h
    · exact absurd h (by simp)
    · next u heq =>
      injection h with hb
      exact ⟨u, heq, hb ▸ rfl⟩
  · intro body db2 h
    unfold updateUser at h
    split at h
    · exact absurd h (by simp)
    · split at h
      · exact absurd h (by simp)
      · split at h
        · exact absurd h (by simp)
        · next u heq =>
          split at h
          · exact absurd h (by simp)
          · rw [Prod.mk.injEq] at h
            obtain ⟨h1, _⟩ := h
            injection h1 with hb
            exact ⟨u, heq, hb ▸ rfl⟩

/-- Witness for C10: a successful login of `alice`, a registration of `bob`,
`alice`'s profile read and `alice`'s self-update, each applied concretely. -/
theorem c10_responses_password_free_witness :
    (∃ u, demoDb.users.find? (fun v => v.username == "alice") = some u ∧
       authSuccessBody demoSign demoUser = authSuccessBody demoSign (setPassword u "X")) ∧
    (∃ u, ({ demoDb with
              users := demoDb.users ++
                [mkRegisteredUser demoHash (some "bob") (some "secret99") none "u9" 9] } : Db).users =
            demoDb.users ++ [u] ∧
       authSuccessBody demoSign (mkRegisteredUser demoHash (some "bob") (some "secret99") none "u9" 9) =
         authSuccessBody demoSign (setPassword u "X")) ∧
    (∃ u, demoDb.users.find? (fun v => v.id == "u1") = some u ∧
       profileBody demoUser = profileBody (setPassword u "X")) ∧
    (∃ u, demoDb.users.find? (fun v => v.id == "u1") = some u ∧
       updatedProfileBody (applyUserUpdate demoHash pwBody 9 demoUser) =
         updatedProfileBody (setPassword (applyUserUpdate demoHash pwBody 9 u) "X")) :=
  ⟨(c10_responses_password_free demoSign demoCompare demoEmailOk demoHash demoDb
      (some "alice") (some "secret1") (some "bob") (some "secret99") none
      "u1" "u1" "u1" "u9" pwBody 9 "X").1
     (authSuccessBody demoSign demoUser) rfl,
   (c10_responses_password_free demoSign demoCompare demoEmailOk demoHash demoDb
      (some "alice") (some "secret1") (some "bob") (some "secret99") none
      "u1" "u1" "u1" "u9" pwBody 9 "X").2.1
     (authSuccessBody demoSign (mkRegisteredUser demoHash (some "bob") (some "secret99") none "u9" 9))
     { demoDb with
       users := demoDb.users ++
         [mkRegisteredUser demoHash (some "bob") (some "secret99") none "u9" 9] } rfl,
   (c10_responses_password_free demoSign demoCompare demoEmailOk demoHash demoDb
      (some "alice") (some "secret1") (some "bob") (some "secret99") none
      "u1" "u1" "u1" "u9" pwBody 9 "X").2.2.1
     (profileBody demoUser) rfl,
   (c10_responses_password_free demoSign demoCompare demoEmailOk demoHash demoDb
      (some "alice") (some "secret1") (some "bob") (some "secret99") none
      "u1" "u1" "u1" "u9" pwBody 9 "X").2.2.2
     (updatedProfileBody (applyUserUpdate demoHash pwBody 9 demoUser))
     { demoDb with
       users := demoDb.users.map
         (fun v => if v.id == "u1" then applyUserUpdate demoHash pwBody 9 v else v) } rfl⟩

end AudioUploader
